import Mathlib

/-!
Verification of the tool-registration adapter of the `smartbear-mcp`
repository (`src/common/server.ts`), as a shallow embedding in Lean 4.

The embedding translates the TypeScript source into executable Lean
definitions:

* JavaScript/JSON values that flow through the adapter are modelled by
  the `Json` inductive; `JSON.stringify` (compact and 2-space indented)
  is modelled by `jsonStringify` and `jsonPretty`.
* Zod schema objects are modelled by the `ZodType` inductive: one
  constructor per Zod class the source dispatches on (`instanceof`
  chains), each carrying the node's `description` attribute, plus an
  `unknown` constructor for schema kinds the source does not recognise.
* The adapter functions (`schemaToRawShape`, `getReadableTypeName`,
  `formatParameterDescription`, `getDescription`, the tool-name
  normalisation and the guarded invocation wrapper) are translated
  one-to-one; JavaScript truthiness tests on strings, arrays and
  optional values are made explicit.

Parts of the repository that the provided sources only import
(`ToolParams`/`Client` from `types.ts`, `ToolError` from `tools.ts`, the
Bugsnag telemetry sink, and `unwrapZodType` from `zod-utils.ts`) are
modelled from the specification and are marked as such.
-/

/-- JSON values (JavaScript numbers restricted to integers, which is all
the adapter's observable behaviour depends on). -/
inductive Json where
  | null : Json
  | bool (b : Bool) : Json
  | num (n : Int) : Json
  | str (s : String) : Json
  | arr (items : List Json) : Json
  | obj (fields : List (String × Json)) : Json

/-- Escape of a single character inside a JSON string literal. -/
def escapeJsonChar (c : Char) : String :=
  if c == '"' then "\\\""
  else if c == '\\' then "\\\\"
  else if c == '\n' then "\\n"
  else if c == '\r' then "\\r"
  else if c == '\t' then "\\t"
  else String.singleton c

/-- JSON string literal quoting, as produced by `JSON.stringify`. -/
def jsonQuote (s : String) : String :=
  "\"" ++ String.join (s.data.map escapeJsonChar) ++ "\""

mutual

/-- Compact `JSON.stringify(value)` (no spacing), as used for default
values in `formatParameterDescription` and for `structuredContent` in
`addStructuredContentAsText`. -/
def jsonStringify : Json → String
  | .null => "null"
  | .bool b => if b then "true" else "false"
  | .num n => toString n
  | .str s => jsonQuote s
  | .arr items => "[" ++ jsonStringifyItems items ++ "]"
  | .obj fields => "\x7b" ++ jsonStringifyFields fields ++ "\x7d"

/-- Comma-joined compact serialisations of array elements. -/
def jsonStringifyItems : List Json → String
  | [] => ""
  | [x] => jsonStringify x
  | x :: y :: rest => jsonStringify x ++ "," ++ jsonStringifyItems (y :: rest)

/-- Comma-joined compact serialisations of object entries. -/
def jsonStringifyFields : List (String × Json) → String
  | [] => ""
  | [(k, v)] => jsonQuote k ++ ":" ++ jsonStringify v
  | (k, v) :: f :: rest =>
    jsonQuote k ++ ":" ++ jsonStringify v ++ "," ++ jsonStringifyFields (f :: rest)

end

mutual

/-- `JSON.stringify(value, null, 2)`: pretty printing with two-space
indentation, as used for example parameters in `getDescription`.
`ind` is the indentation of the surrounding context. -/
def jsonPretty (ind : String) : Json → String
  | .arr [] => "[]"
  | .arr (x :: rest) =>
    "[\n" ++ jsonPrettyItems (ind ++ "  ") (x :: rest) ++ "\n" ++ ind ++ "]"
  | .obj [] => "\x7b\x7d"
  | .obj (f :: rest) =>
    "\x7b\n" ++ jsonPrettyFields (ind ++ "  ") (f :: rest) ++ "\n" ++ ind ++ "\x7d"
  | .null => "null"
  | .bool b => if b then "true" else "false"
  | .num n => toString n
  | .str s => jsonQuote s

/-- Pretty-printed array elements, one per line. -/
def jsonPrettyItems (ind : String) : List Json → String
  | [] => ""
  | [x] => ind ++ jsonPretty ind x
  | x :: y :: rest => ind ++ jsonPretty ind x ++ ",\n" ++ jsonPrettyItems ind (y :: rest)

/-- Pretty-printed object entries, one per line. -/
def jsonPrettyFields (ind : String) : List (String × Json) → String
  | [] => ""
  | [(k, v)] => ind ++ jsonQuote k ++ ": " ++ jsonPretty ind v
  | (k, v) :: f :: rest =>
    ind ++ jsonQuote k ++ ": " ++ jsonPretty ind v ++ ",\n" ++ jsonPrettyFields ind (f :: rest)

end

/-- Zod schema nodes, one constructor per Zod class the source code
dispatches on with `instanceof`, each carrying the node's `description`
attribute (set by `.describe`, absent otherwise). The `unknown`
constructor stands for any other Zod schema class. -/
inductive ZodType where
  | str (descr : Option String)
  | num (descr : Option String)
  | boolean (descr : Option String)
  | arr (inner : ZodType) (descr : Option String)
  | object (shape : List (String × ZodType)) (descr : Option String)
  | record (keyType valueType : ZodType) (descr : Option String)
  | enumT (values : List String) (descr : Option String)
  | literalT (value : Json) (descr : Option String)
  | union (options : List ZodType) (descr : Option String)
  | inter (left right : ZodType) (descr : Option String)
  | optionalT (inner : ZodType) (descr : Option String)
  | defaultT (inner : ZodType) (defaultValue : Json) (descr : Option String)
  | anyT (descr : Option String)
  | unknown (descr : Option String)

/-- The `description` attribute of a schema node (Zod's `.description`). -/
def ZodType.descr : ZodType → Option String
  | .str d => d
  | .num d => d
  | .boolean d => d
  | .arr _ d => d
  | .object _ d => d
  | .record _ _ d => d
  | .enumT _ d => d
  | .literalT _ d => d
  | .union _ d => d
  | .inter _ _ d => d
  | .optionalT _ d => d
  | .defaultT _ _ d => d
  | .anyT d => d
  | .unknown d => d

/-- Modelled from the spec: `unwrapZodType` (imported by `server.ts` from
`src/common/zod-utils.ts`, which is not among the provided sources).
Spec §4.2: recursively strips `optional` and `default` wrapper kinds and
returns the first non-wrapper node reached. -/
def unwrapZodType : ZodType → ZodType
  | .optionalT inner _ => unwrapZodType inner
  | .defaultT inner _ _ => unwrapZodType inner
  | t => t

/-- `getReadableTypeName` from `server.ts` (lines 324-340): unwrap
optional/default wrappers, then map each recognised Zod class to its
fixed label, recursing into the key and value types of a record;
anything unrecognised yields `"any"`. The unwrapping (`unwrapZodType`)
is merged into the match so the recursion is structural; the wrapper
cases are exactly the recursion of `unwrapZodType`. -/
def getReadableTypeName : ZodType → String
  | .optionalT inner _ => getReadableTypeName inner
  | .defaultT inner _ _ => getReadableTypeName inner
  | .record keyType valueType _ =>
    "record<" ++ getReadableTypeName keyType ++ ", " ++ getReadableTypeName valueType ++ ">"
  | .str _ => "string"
  | .num _ => "number"
  | .boolean _ => "boolean"
  | .arr _ _ => "array"
  | .object _ _ => "object"
  | .enumT _ _ => "enum"
  | .literalT _ _ => "literal"
  | .union _ _ => "union"
  | .anyT _ => "any"
  | .inter _ _ _ => "any"
  | .unknown _ => "any"

/-- A Zod raw shape: the ordered field mapping of an object schema. -/
abbrev RawShape := List (String × ZodType)

/-- First-match lookup of a field in a raw shape (JavaScript property
access on the shape object). -/
def shapeLookup (shape : RawShape) (k : String) : Option ZodType :=
  match shape with
  | [] => none
  | (k', v) :: rest => if k' == k then some v else shapeLookup rest k

/-- JavaScript object spread `{...l, ...r}` on two shapes: keys of `l`
in order (values overridden by `r` on collision), followed by the keys
of `r` that are not in `l`, in order. -/
def mergeShapes (l r : RawShape) : RawShape :=
  (l.map fun kv =>
    match shapeLookup r kv.1 with
    | some w => (kv.1, w)
    | none => kv)
  ++ r.filter fun kv => (shapeLookup l kv.1).isNone

/-- `schemaToRawShape` from `server.ts` (lines 197-215) on a present
schema: a `ZodObject` yields its shape, a `ZodIntersection` yields the
spread-merge of the recursively flattened sides (an undefined side
contributing no fields), anything else yields `undefined`. -/
def schemaToRawShapeT : ZodType → Option RawShape
  | .object shape _ => some shape
  | .inter left right _ =>
    some (mergeShapes ((schemaToRawShapeT left).getD []) ((schemaToRawShapeT right).getD []))
  | _ => none

/-- `schemaToRawShape` from `server.ts` including the absent-schema
guard (`if (schema)`). -/
def schemaToRawShape : Option ZodType → Option RawShape
  | some schema => schemaToRawShapeT schema
  | none => none

/-- Modelled from the spec: `ParameterSpec` (part of `ToolParams` in
`src/common/types.ts`, which is not among the provided sources) as
described in §3 and as used by `getDescription` and `getInputSchema`. -/
structure ParameterSpec where
  name : String
  type : ZodType
  required : Bool
  description : Option String
  examples : Option (List String)
  constraints : Option (List String)

/-- Modelled from the spec: `ExampleSpec` (§3); example parameters are
an arbitrary structured value. -/
structure ExampleSpec where
  description : String
  parameters : Json
  expectedOutput : Option String

/-- Modelled from the spec: `ToolParams` (`src/common/types.ts`, not
among the provided sources), per §3 and the destructuring in
`getDescription`/`getAnnotations`. -/
structure ToolParams where
  title : String
  summary : String
  parameters : Option (List ParameterSpec)
  inputSchema : Option ZodType
  outputSchema : Option ZodType
  useCases : Option (List String)
  examples : Option (List ExampleSpec)
  hints : Option (List String)
  outputDescription : Option String
  readOnly : Option Bool
  destructive : Option Bool
  idempotent : Option Bool
  openWorld : Option Bool

/-- The JavaScript whitespace class `\s` (also the set trimmed by
`String.prototype.trim`). -/
def jsWs (c : Char) : Bool :=
  c == ' ' || c == '\t' || c == '\n' || c == '\r' || c == '\x0b' || c == '\x0c'
  || c == ' ' || c == ' '
  || (decide (0x2000 ≤ c.toNat) && decide (c.toNat ≤ 0x200A))
  || c == ' ' || c == ' ' || c == ' ' || c == ' '
  || c == '　' || c == '﻿'

/-- Drop the longest suffix whose characters all satisfy `p`. -/
def dropTrailing (p : Char → Bool) (l : List Char) : List Char :=
  (l.reverse.dropWhile p).reverse

/-- `String.prototype.trim` on the character list. -/
def jsTrimData (l : List Char) : List Char :=
  dropTrailing jsWs (l.dropWhile jsWs)

/-- `String.prototype.trim`. -/
def jsTrim (s : String) : String :=
  String.mk (jsTrimData s.data)

/-- `formatParameterDescription` from `server.ts` (lines 285-322): keep
the outermost description found so far (an empty string counting as
absent, per `field.description || null`), recursively unwrap
`ZodOptional` (marking the field optional) and `ZodDefault` (marking it
optional and capturing `JSON.stringify` of the default value), then emit
the parameter line; the emptiness tests on `description` and
`defaultValue` are JavaScript string truthiness. -/
def formatParameterDescription (key : String) (field : ZodType)
    (descr0 : Option String) (isOpt : Bool) (defaultValue : Option String) : String :=
  let descr : Option String :=
    match descr0 with
    | some d => some d
    | none =>
      match field.descr with
      | some fd => if fd == "" then none else some fd
      | none => none
  match field with
  | .optionalT inner _ => formatParameterDescription key inner descr true defaultValue
  | .defaultT inner dv _ =>
    formatParameterDescription key inner descr true (some (jsonStringify dv))
  | _ =>
    "- " ++ key ++ " (" ++ getReadableTypeName field ++ ")"
      ++ (if isOpt then "" else " *required*")
      ++ (match descr with
          | some d => if d == "" then "" else ": " ++ d
          | none => "")
      ++ (match defaultValue with
          | some dv => if dv == "" then "" else " (default: " ++ dv ++ ")"
          | none => "")

/-- One line of the explicit-parameters section of `getDescription`
(lines 238-242): name, readable type, `*required*` flag, description
(string truthiness), examples (emitted whenever the array is present)
and constraints as indented bullets. -/
def paramLine (p : ParameterSpec) : String :=
  "- " ++ p.name ++ " (" ++ getReadableTypeName p.type ++ ")"
    ++ (if p.required then " *required*" else "")
    ++ (match p.description with
        | some d => if d == "" then "" else ": " ++ d
        | none => "")
    ++ (match p.examples with
        | some exs => " (e.g. " ++ String.intercalate ", " exs ++ ")"
        | none => "")
    ++ (match p.constraints with
        | some cs => "\n  - " ++ String.intercalate "\n  - " cs
        | none => "")

/-- The explicit-parameters section of `getDescription` (guard
`(parameters ?? []).length > 0`). -/
def explicitParamsSection : Option (List ParameterSpec) → String
  | some ps =>
    if ps.length > 0 then
      "\n\n**Parameters:**\n" ++ String.intercalate "\n" (ps.map paramLine)
    else ""
  | none => ""

/-- The input-schema parameter lines of `getDescription` (lines
249-253): one `formatParameterDescription` line per shape field, joined
by newlines. -/
def inputSchemaLines (shape : RawShape) : String :=
  String.intercalate "\n"
    (shape.map fun kv => formatParameterDescription kv.1 kv.2 none false none)

/-- The schema-derived parameters section of `getDescription` (guard
`inputSchema && inputSchema instanceof ZodObject`, lines 247-254): only
a plain `ZodObject` produces the section. -/
def schemaParamsSection : Option ZodType → String
  | some (ZodType.object shape _) => "\n\n**Parameters:**\n" ++ inputSchemaLines shape
  | _ => ""

/-- The output-description section (guard is string truthiness). -/
def outputDescSection : Option String → String
  | some s => if s == "" then "" else "\n\n**Output Description:** " ++ s
  | none => ""

/-- `xs.map((x, i) => (i+1) + ". " + x).join(" ")`. -/
def numberedJoin (xs : List String) : String :=
  String.intercalate " " (xs.enum.map fun p => toString (p.1 + 1) ++ ". " ++ p.2)

/-- The use-cases section (guard `useCases && useCases.length > 0`). -/
def useCasesSection : Option (List String) → String
  | some ucs => if ucs.length > 0 then "\n\n**Use Cases:** " ++ numberedJoin ucs else ""
  | none => ""

/-- One example block (lines 270-273): number, description, fenced
pretty-printed JSON parameters, optional expected output (string
truthiness). -/
def exampleBlock (idx : Nat) (ex : ExampleSpec) : String :=
  toString (idx + 1) ++ ". " ++ ex.description
    ++ "\n```json\n" ++ jsonPretty "" ex.parameters ++ "\n```"
    ++ (match ex.expectedOutput with
        | some eo => if eo == "" then "" else "\nExpected Output: " ++ eo
        | none => "")

/-- The examples section (guard `examples && examples.length > 0`). -/
def examplesSection : Option (List ExampleSpec) → String
  | some exs =>
    if exs.length > 0 then
      "\n\n**Examples:**\n"
        ++ String.intercalate "\n\n" (exs.enum.map fun p => exampleBlock p.1 p.2)
    else ""
  | none => ""

/-- The hints section (guard `hints && hints.length > 0`). -/
def hintsSection : Option (List String) → String
  | some hs => if hs.length > 0 then "\n\n**Hints:** " ++ numberedJoin hs else ""
  | none => ""

/-- `getDescription` from `server.ts` (lines 221-283): the summary
followed by the conditional sections in source order, trimmed. -/
def getDescription (params : ToolParams) : String :=
  jsTrim (params.summary
    ++ explicitParamsSection params.parameters
    ++ schemaParamsSection params.inputSchema
    ++ outputDescSection params.outputDescription
    ++ useCasesSection params.useCases
    ++ examplesSection params.examples
    ++ hintsSection params.hints)

/-- ASCII lower-casing of a string (`String.prototype.toLowerCase` on
the inputs the adapter receives). -/
def jsToLower (s : String) : String :=
  String.mk (s.data.map Char.toLower)

/-- `title.replace(/\s+/g, "_")`: each maximal run of whitespace becomes
a single underscore. The boolean tracks whether the previous character
was part of a whitespace run. -/
def replaceWsRunsAux : List Char → Bool → List Char
  | [], _ => []
  | c :: rest, prevWs =>
    if jsWs c then
      if prevWs then replaceWsRunsAux rest true
      else '_' :: replaceWsRunsAux rest true
    else c :: replaceWsRunsAux rest false

/-- `title.replace(/\s+/g, "_")`. -/
def replaceWsRuns (s : String) : String :=
  String.mk (replaceWsRunsAux s.data false)

/-- The first `n` characters of a string (`String.prototype.slice(0, n)`
on the adapter's inputs). -/
def strTake (s : String) (n : Nat) : String :=
  String.mk (s.data.take n)

/-- The raw tool name of `server.ts` line 61:
`prefix + "_" + title.replace(/\s+/g, "_").toLowerCase()`. -/
def rawToolName (pfx title : String) : String :=
  pfx ++ "_" ++ jsToLower (replaceWsRuns title)

/-- The registered tool name of `server.ts` lines 61-63: the raw name,
cut to its first 64 characters when longer than 64. -/
def toolNameOf (pfx title : String) : String :=
  let raw := rawToolName pfx title
  if raw.length > 64 then strTake raw 64 else raw

/-- Modelled from the spec: the part of the `Client` interface
(`src/common/types.ts`, not among the provided sources) that the tool
invocation wrapper reads (§6): display name, tool-name prefix, and the
result of the `isConfigured()` query at the time of the call. -/
structure Client where
  name : String
  toolPrefix : String
  isConfigured : Bool

/-- One item of a tool result's `content` array (text items are the only
kind the adapter produces or inspects). -/
structure ContentItem where
  type : String
  text : String

/-- A `CallToolResult` as the wrapper observes it: `isError` (absent
meaning false), the `content` array (absent and empty are
indistinguishable to the wrapper, which only tests `!content?.length`),
and the optional `structuredContent` object. -/
structure CallToolResult where
  isError : Bool
  content : List ContentItem
  structuredContent : Option (List (String × Json))

/-- Modelled from the spec: the errors distinguished by the wrapper's
catch block. `toolError` is `ToolError` from `src/common/tools.ts` (not
among the provided sources), the expected, user-facing domain error of
§7; `plainError` is any other thrown `Error`. -/
inductive JsError where
  | toolError (message : String)
  | plainError (message : String)

/-- The `message` carried by a thrown error. -/
def JsError.message : JsError → String
  | .toolError m => m
  | .plainError m => m

/-- Whether an error is a `ToolError` (`e instanceof ToolError`). -/
def JsError.isToolError : JsError → Bool
  | .toolError _ => true
  | .plainError _ => false

/-- Modelled from the spec: one notification received by the Bugsnag
telemetry sink (§6): the error, the metadata section and tool name
attached by the configuration callback
(`event.addMetadata("app", { tool: toolName })`), and the unhandled
mark. -/
structure BugsnagEvent where
  error : JsError
  metadataKey : String
  metadataTool : String
  unhandled : Bool

/-- The notification sent at `server.ts` lines 100-103. -/
def bugsnagNotifyEvent (e : JsError) (toolName : String) : BugsnagEvent :=
  { error := e, metadataKey := "app", metadataTool := toolName, unhandled := true }

/-- How one invocation of the wrapper terminates: a returned value
(possibly the callback's own null/undefined result) or a thrown error. -/
inductive WrapperOutcome where
  | returns (r : Option CallToolResult)
  | throws (e : JsError)

/-- Everything observable about one invocation of the wrapper: its
outcome, the notifications sent to the telemetry sink, and whether the
client-supplied callback was invoked. -/
structure InvokeTrace where
  outcome : WrapperOutcome
  notifications : List BugsnagEvent
  callbackInvoked : Bool

/-- The possible behaviours of the client-supplied callback on one
invocation: resolving with a (possibly null/undefined) result, or
throwing. -/
inductive CbOutcome where
  | resolves (result : Option CallToolResult)
  | throws (e : JsError)

/-- `validateCallbackResult` from `server.ts` (lines 146-155): `none`
when the result passes, `some` the thrown error when a declared
`outputSchema` meets a non-error result without `structuredContent`. -/
def validateCallbackResult (result : CallToolResult) (params : ToolParams) : Option JsError :=
  if result.isError then none
  else if params.outputSchema.isSome && result.structuredContent.isNone then
    some (.plainError
      ("The result of the tool '" ++ params.title ++ "' must include 'structuredContent'"))
  else none

/-- `addStructuredContentAsText` from `server.ts` (lines 157-166): when
`structuredContent` is present and `content` is empty, synthesize a
single text content item holding its compact JSON serialisation. -/
def addStructuredContentAsText (result : CallToolResult) : CallToolResult :=
  match result.structuredContent with
  | some sc =>
    if result.content.isEmpty then
      { result with content := [{ type := "text", text := jsonStringify (Json.obj sc) }] }
    else result
  | none => result

/-- The catch block of the invocation wrapper (`server.ts` lines
87-106): a `ToolError` becomes an `isError` result with message
`"Error executing {toolTitle}: {message}"` and is not reported; any
other error is reported to the telemetry sink once and re-thrown
unchanged. -/
def handleError (toolTitle toolName : String) (cbInvoked : Bool) (e : JsError) : InvokeTrace :=
  match e with
  | .toolError m =>
    { outcome := .returns (some
        { isError := true
          content := [{ type := "text", text := "Error executing " ++ toolTitle ++ ": " ++ m }]
          structuredContent := none })
      notifications := []
      callbackInvoked := cbInvoked }
  | .plainError _ =>
    { outcome := .throws e
      notifications := [bugsnagNotifyEvent e toolName]
      callbackInvoked := cbInvoked }

/-- The guarded invocation wrapper registered for each tool (`server.ts`
lines 74-107): configuration check (a failing check throws a
`ToolError` with the fixed configuration message into the catch block
without invoking the callback), then the callback; a present result is
validated and normalised, an absent (null/undefined) result is returned
untouched; thrown errors go through the catch block. -/
def toolCallWrapper (client : Client) (toolName toolTitle : String)
    (params : ToolParams) (cb : CbOutcome) : InvokeTrace :=
  if !client.isConfigured then
    handleError toolTitle toolName false
      (.toolError ("The tool is not configured - configuration options for "
        ++ client.name ++ " are missing or invalid."))
  else
    match cb with
    | .throws e => handleError toolTitle toolName true e
    | .resolves none =>
      { outcome := .returns none, notifications := [], callbackInvoked := true }
    | .resolves (some result) =>
      match validateCallbackResult result params with
      | some e => handleError toolTitle toolName true e
      | none =>
        { outcome := .returns (some (addStructuredContentAsText result))
          notifications := []
          callbackInvoked := true }

/-- Boolean prefix test on character lists. -/
def prefB : List Char → List Char → Bool
  | [], _ => true
  | _ :: _, [] => false
  | a :: l, b :: m => a == b && prefB l m

/-- Boolean contiguous-substring test: `l` is a prefix of some suffix of
the second list. -/
def subLB (l : List Char) : List Char → Bool
  | [] => prefB l []
  | b :: m => prefB l (b :: m) || subLB l m

/-- Boolean contiguous-substring test on strings. -/
def substrB (a b : String) : Bool :=
  subLB a.data b.data

/-- Whether a string is non-empty and does not end in a whitespace
character. -/
def endsNonWsB (s : String) : Bool :=
  match s.data.getLast? with
  | some c => !jsWs c
  | none => false

/-- The closed set of labels `getReadableTypeName` may produce: the
fixed scalar labels plus `record<K, V>` for labels `K` and `V`. -/
inductive ReadableLabel : String → Prop where
  | stringL : ReadableLabel "string"
  | numberL : ReadableLabel "number"
  | booleanL : ReadableLabel "boolean"
  | arrayL : ReadableLabel "array"
  | objectL : ReadableLabel "object"
  | enumL : ReadableLabel "enum"
  | literalL : ReadableLabel "literal"
  | unionL : ReadableLabel "union"
  | anyL : ReadableLabel "any"
  | recordL (k v : String) : ReadableLabel k → ReadableLabel v →
      ReadableLabel ("record<" ++ k ++ ", " ++ v ++ ">")

theorem strDataAppend (a b : String) : (a ++ b).data = a.data ++ b.data := by
  cases a; cases b; rfl

theorem strMkData (s : String) : String.mk s.data = s := by
  cases s; rfl

/-- Concrete client used by the witnesses, mirroring the mock client of
the unit tests. -/
def witClient : Client :=
  { name := "Test Product", toolPrefix := "test_product", isConfigured := true }

/-- The same client with a failing configuration check. -/
def witClientOff : Client :=
  { name := "Test Product", toolPrefix := "test_product", isConfigured := false }

/-- A minimal ToolSpec used by the witnesses. -/
def emptyParams : ToolParams :=
  { title := "Test Tool", summary := "A test tool", parameters := none,
    inputSchema := none, outputSchema := none, useCases := none,
    examples := none, hints := none, outputDescription := none,
    readOnly := none, destructive := none, idempotent := none, openWorld := none }

/-- A ToolSpec declaring an output schema, mirroring the output-schema
unit tests. -/
def outputSchemaParams : ToolParams :=
  { title := "Get values", summary := "Tool using output schema", parameters := none,
    inputSchema := none,
    outputSchema := some (ZodType.object
      [("values", ZodType.arr
        (ZodType.object [("id", ZodType.str none), ("name", ZodType.str none)] none)
        (some "List of values"))] none),
    useCases := none, examples := none, hints := none, outputDescription := none,
    readOnly := none, destructive := none, idempotent := none, openWorld := none }

/-- C2: when the client is configured and the callback raises a
`ToolError` with message `m`, the wrapper returns
`{isError: true, content: [{type: "text", text: "Error executing " ++ toolTitle ++ ": " ++ m}]}`
and sends no notification to the telemetry sink. -/
theorem c2_tool_error_absorbed (client : Client) (toolName toolTitle : String)
    (params : ToolParams) (m : String) (hconf : client.isConfigured = true) :
    toolCallWrapper client toolName toolTitle params (.throws (.toolError m)) =
      { outcome := .returns (some
          { isError := true
            content := [{ type := "text",
                           text := "Error executing " ++ toolTitle ++ ": " ++ m }]
            structuredContent := none })
        notifications := []
        callbackInvoked := true } := by
  simp [toolCallWrapper, hconf, handleError]

/-- C2 witness: the configured test client with a callback throwing a
`ToolError` with message `"X"` and tool title
`"Test Product: Test Tool"`. -/
theorem c2_tool_error_absorbed_witness :
    witClient.isConfigured = true ∧
    toolCallWrapper witClient "test_product_test_tool" "Test Product: Test Tool"
        emptyParams (.throws (.toolError "X")) =
      { outcome := .returns (some
          { isError := true
            content := [{ type := "text",
                           text := "Error executing Test Product: Test Tool: X" }]
            structuredContent := none })
        notifications := []
        callbackInvoked := true } :=
  ⟨rfl, by
    rw [c2_tool_error_absorbed witClient "test_product_test_tool"
      "Test Product: Test Tool" emptyParams "X" rfl]
    rfl⟩

/-- C3: when the client is configured, the ToolSpec declares an
`outputSchema`, and the callback resolves a non-error result without
`structuredContent`, the wrapper throws the output-contract error with
the title interpolated, the telemetry sink receives exactly one
notification, and the failure is not converted into an `isError`
result. -/
theorem c3_missing_structured_content_throws (client : Client)
    (toolName toolTitle : String) (params : ToolParams) (result : CallToolResult)
    (hconf : client.isConfigured = true)
    (hout : params.outputSchema.isSome = true)
    (herr : result.isError = false)
    (hsc : result.structuredContent = none) :
    toolCallWrapper client toolName toolTitle params (.resolves (some result)) =
      { outcome := .throws (.plainError
          ("The result of the tool '" ++ params.title ++ "' must include 'structuredContent'"))
        notifications := [bugsnagNotifyEvent
          (.plainError
            ("The result of the tool '" ++ params.title ++ "' must include 'structuredContent'"))
          toolName]
        callbackInvoked := true } := by
  simp [toolCallWrapper, hconf, validateCallbackResult, herr, hout, hsc, handleError]

/-- C3 witness: the output-schema ToolSpec with a callback resolving
`{isError: false}` and no `structuredContent`. -/
theorem c3_missing_structured_content_throws_witness :
    witClient.isConfigured = true ∧
    outputSchemaParams.outputSchema.isSome = true ∧
    toolCallWrapper witClient "test_product_get_values" "Test Product: Get values"
        outputSchemaParams
        (.resolves (some { isError := false, content := [], structuredContent := none })) =
      { outcome := .throws (.plainError
          "The result of the tool 'Get values' must include 'structuredContent'")
        notifications := [bugsnagNotifyEvent
          (.plainError "The result of the tool 'Get values' must include 'structuredContent'")
          "test_product_get_values"]
        callbackInvoked := true } :=
  ⟨rfl, rfl, by
    rw [c3_missing_structured_content_throws witClient "test_product_get_values"
      "Test Product: Get values" outputSchemaParams
      { isError := false, content := [], structuredContent := none } rfl rfl rfl rfl]
    rfl⟩

/-- C4: when the client is configured and the callback raises an error
that is not a `ToolError`, the wrapper sends exactly one notification
carrying the error with metadata `{tool: toolName}` marked unhandled,
and re-throws the same error unchanged; it is never absorbed into an
`isError` result. -/
theorem c4_unexpected_error_reported (client : Client) (toolName toolTitle : String)
    (params : ToolParams) (e : JsError)
    (hconf : client.isConfigured = true)
    (hnot : e.isToolError = false) :
    toolCallWrapper client toolName toolTitle params (.throws e) =
      { outcome := .throws e
        notifications := [bugsnagNotifyEvent e toolName]
        callbackInvoked := true } := by
  cases e with
  | toolError m => simp [JsError.isToolError] at hnot
  | plainError m => simp [toolCallWrapper, hconf, handleError]

/-- C4 witness: a callback raising a plain error `"Y"`. -/
theorem c4_unexpected_error_reported_witness :
    witClient.isConfigured = true ∧
    (JsError.plainError "Y").isToolError = false ∧
    toolCallWrapper witClient "test_product_test_tool" "Test Product: Test Tool"
        emptyParams (.throws (.plainError "Y")) =
      { outcome := .throws (.plainError "Y")
        notifications := [{ error := .plainError "Y", metadataKey := "app",
                            metadataTool := "test_product_test_tool", unhandled := true }]
        callbackInvoked := true } :=
  ⟨rfl, rfl, by
    rw [c4_unexpected_error_reported witClient "test_product_test_tool"
      "Test Product: Test Tool" emptyParams (.plainError "Y") rfl rfl]
    rfl⟩

/-- C5: when `client.isConfigured()` is false, the wrapper returns an
`isError` result embedding the fixed configuration-error template with
the client name interpolated, sends no notification, and never invokes
the callback — whatever the callback would have done. -/
theorem c5_not_configured_short_circuit (client : Client) (toolName toolTitle : String)
    (params : ToolParams) (cb : CbOutcome)
    (hconf : client.isConfigured = false) :
    toolCallWrapper client toolName toolTitle params cb =
      { outcome := .returns (some
          { isError := true
            content := [{ type := "text",
                           text := "Error executing " ++ toolTitle ++ ": "
                             ++ ("The tool is not configured - configuration options for "
                               ++ client.name ++ " are missing or invalid.") }]
            structuredContent := none })
        notifications := []
        callbackInvoked := false } := by
  simp [toolCallWrapper, hconf, handleError]

/-- C5 witness: the non-configured test client with a callback that
would have resolved successfully; the text matches the unit test's
expected message verbatim. -/
theorem c5_not_configured_short_circuit_witness :
    witClientOff.isConfigured = false ∧
    toolCallWrapper witClientOff "test_product_test_tool" "Test Product: Test Tool"
        emptyParams (.resolves (some { isError := false, content := [], structuredContent := none })) =
      { outcome := .returns (some
          { isError := true
            content := [{ type := "text",
                           text := "Error executing Test Product: Test Tool: The tool is not configured - configuration options for Test Product are missing or invalid." }]
            structuredContent := none })
        notifications := []
        callbackInvoked := false } :=
  ⟨rfl, by
    rw [c5_not_configured_short_circuit witClientOff "test_product_test_tool"
      "Test Product: Test Tool" emptyParams
      (.resolves (some { isError := false, content := [], structuredContent := none })) rfl]
    rfl⟩

/-- C10: when the client is configured and the callback resolves a
null/undefined result, the wrapper returns it unchanged: no
`structuredContent` validation happens (even with a declared
`outputSchema`), no content is synthesized, and no notification is
sent. -/
theorem c10_null_result_passthrough (client : Client) (toolName toolTitle : String)
    (params : ToolParams) (hconf : client.isConfigured = true) :
    toolCallWrapper client toolName toolTitle params (.resolves none) =
      { outcome := .returns none, notifications := [], callbackInvoked := true } := by
  simp [toolCallWrapper, hconf]

/-- C10 witness: the configured client and a ToolSpec that does declare
an `outputSchema`, with a callback resolving null. -/
theorem c10_null_result_passthrough_witness :
    witClient.isConfigured = true ∧
    outputSchemaParams.outputSchema.isSome = true ∧
    toolCallWrapper witClient "test_product_get_values" "Test Product: Get values"
        outputSchemaParams (.resolves none) =
      { outcome := .returns none, notifications := [], callbackInvoked := true } :=
  ⟨rfl, rfl, by
    rw [c10_null_result_passthrough witClient "test_product_get_values"
      "Test Product: Get values" outputSchemaParams rfl]⟩

/-- C6: the registered tool name always equals the first 64 characters
of `prefix + "_" + (title with whitespace runs replaced by single
underscores, lower-cased)`; its length never exceeds 64; and the long
test title yields exactly the first 64 characters of that string, a
64-character name. The derivation is a total function, so it has no
error condition. -/
theorem c6_tool_name_normalized :
    (∀ pfx title : String, toolNameOf pfx title = strTake (rawToolName pfx title) 64) ∧
    (∀ pfx title : String, (toolNameOf pfx title).length ≤ 64) ∧
    toolNameOf "test_product"
        "This is a really long tool title that should be truncated by the server" =
      strTake (rawToolName "test_product"
        "This is a really long tool title that should be truncated by the server") 64 ∧
    toolNameOf "test_product"
        "This is a really long tool title that should be truncated by the server" =
      "test_product_this_is_a_really_long_tool_title_that_should_be_tru" ∧
    (toolNameOf "test_product"
        "This is a really long tool title that should be truncated by the server").length = 64 := by
  have key : ∀ pfx title : String, toolNameOf pfx title = strTake (rawToolName pfx title) 64 := by
    intro pfx title
    rw [toolNameOf]
    by_cases h : (rawToolName pfx title).length > 64
    · simp [h]
    · have hle : (rawToolName pfx title).data.length ≤ 64 := Nat.le_of_not_lt h
      simp only [h, if_false]
      rw [strTake, List.take_of_length_le hle, strMkData]
  refine ⟨key, ?_, key _ _, by rfl, by rfl⟩
  intro pfx title
  rw [key]
  show (strTake (rawToolName pfx title) 64).length ≤ 64
  rw [strTake]
  show ((rawToolName pfx title).data.take 64).length ≤ 64
  rw [List.length_take]
  exact Nat.min_le_left _ _

/-- Lookup on the left of a shape append falls through to the right. -/
theorem shapeLookup_append (l r : RawShape) (k : String) :
    shapeLookup (l ++ r) k =
      match shapeLookup l k with
      | some v => some v
      | none => shapeLookup r k := by
  induction l with
  | nil => simp [shapeLookup]
  | cons kv l ih =>
    obtain ⟨k', v⟩ := kv
    by_cases h : (k' == k) = true
    · simp [shapeLookup, h]
    · simp [shapeLookup, h, ih]

/-- Lookup in the override-mapped left part of a spread merge. -/
theorem shapeLookup_overrideMap (l r : RawShape) (k : String) :
    shapeLookup (l.map fun kv =>
        match shapeLookup r kv.1 with
        | some w => (kv.1, w)
        | none => kv) k =
      match shapeLookup l k, shapeLookup r k with
      | some _, some w => some w
      | some v, none => some v
      | none, _ => none := by
  induction l with
  | nil => simp [shapeLookup]
  | cons kv l ih =>
    obtain ⟨k', v⟩ := kv
    by_cases h : (k' == k) = true
    · have hk : k' = k := by simpa using h
      subst hk
      cases hr : shapeLookup r k' with
      | some w => simp [shapeLookup, h, hr]
      | none => simp [shapeLookup, h, hr]
    · cases hr : shapeLookup r k' with
      | some w => simp [shapeLookup, h, hr, ih]
      | none => simp [shapeLookup, h, hr, ih]

/-- Lookup in the filtered right part of a spread merge. -/
theorem shapeLookup_filterNotInLeft (l r : RawShape) (k : String) :
    shapeLookup (r.filter fun kv => (shapeLookup l kv.1).isNone) k =
      match shapeLookup l k with
      | some _ => none
      | none => shapeLookup r k := by
  induction r with
  | nil => cases shapeLookup l k <;> simp [shapeLookup]
  | cons kv r ih =>
    obtain ⟨k', v⟩ := kv
    by_cases h : (k' == k) = true
    · have hk : k' = k := by simpa using h
      subst hk
      cases hl : shapeLookup l k' with
      | some w => simp [List.filter_cons, hl, ih]
      | none => simp [List.filter_cons, hl, shapeLookup, h]
    · cases hl : shapeLookup l k' with
      | some w => simp [List.filter_cons, hl, shapeLookup, h, ih]
      | none => simp [List.filter_cons, hl, shapeLookup, h, ih]

/-- Field lookup in a spread merge: the right shape wins on collision,
the left shape fills in the rest. -/
theorem shapeLookup_mergeShapes (l r : RawShape) (k : String) :
    shapeLookup (mergeShapes l r) k =
      match shapeLookup r k with
      | some w => some w
      | none => shapeLookup l k := by
  rw [mergeShapes, shapeLookup_append, shapeLookup_overrideMap, shapeLookup_filterNotInLeft]
  cases hl : shapeLookup l k with
  | some v => cases hr : shapeLookup r k <;> simp
  | none => cases hr : shapeLookup r k <;> simp

/-- C7: flattening an intersection yields the field-wise union of the
flattened sides — looked up at any field name, the right side overrides
the left, an undefined side contributing no fields; flattening an
object returns its field mapping; flattening any other kind, or an
absent schema, returns undefined. -/
theorem c7_flatten_intersection :
    (∀ A B d k,
      schemaToRawShape (some (ZodType.inter A B d)) =
        some (mergeShapes ((schemaToRawShapeT A).getD []) ((schemaToRawShapeT B).getD [])) ∧
      shapeLookup ((schemaToRawShape (some (ZodType.inter A B d))).getD []) k =
        match shapeLookup ((schemaToRawShapeT B).getD []) k with
        | some w => some w
        | none => shapeLookup ((schemaToRawShapeT A).getD []) k) ∧
    (∀ shape d, schemaToRawShape (some (ZodType.object shape d)) = some shape) ∧
    (∀ d, schemaToRawShapeT (ZodType.str d) = none) ∧
    (∀ d, schemaToRawShapeT (ZodType.num d) = none) ∧
    (∀ d, schemaToRawShapeT (ZodType.boolean d) = none) ∧
    (∀ inner d, schemaToRawShapeT (ZodType.arr inner d) = none) ∧
    (∀ kt vt d, schemaToRawShapeT (ZodType.record kt vt d) = none) ∧
    (∀ vs d, schemaToRawShapeT (ZodType.enumT vs d) = none) ∧
    (∀ v d, schemaToRawShapeT (ZodType.literalT v d) = none) ∧
    (∀ os d, schemaToRawShapeT (ZodType.union os d) = none) ∧
    (∀ inner d, schemaToRawShapeT (ZodType.optionalT inner d) = none) ∧
    (∀ inner dv d, schemaToRawShapeT (ZodType.defaultT inner dv d) = none) ∧
    (∀ d, schemaToRawShapeT (ZodType.anyT d) = none) ∧
    (∀ d, schemaToRawShapeT (ZodType.unknown d) = none) ∧
    schemaToRawShape none = none := by
  refine ⟨?_, fun _ _ => rfl, fun _ => rfl, fun _ => rfl, fun _ => rfl, fun _ _ => rfl,
    fun _ _ _ => rfl, fun _ _ => rfl, fun _ _ => rfl, fun _ _ => rfl, fun _ _ => rfl,
    fun _ _ _ => rfl, fun _ => rfl, fun _ => rfl, rfl⟩
  intro A B d k
  exact ⟨rfl, shapeLookup_mergeShapes _ _ _⟩

/-- Every schema node's readable type name is in the closed label set. -/
theorem readableLabelTotalAux : ∀ t : ZodType, ReadableLabel (getReadableTypeName t)
  | .optionalT inner _ => readableLabelTotalAux inner
  | .defaultT inner _ _ => readableLabelTotalAux inner
  | .record kt vt _ =>
    .recordL _ _ (readableLabelTotalAux kt) (readableLabelTotalAux vt)
  | .str _ => .stringL
  | .num _ => .numberL
  | .boolean _ => .booleanL
  | .arr _ _ => .arrayL
  | .object _ _ => .objectL
  | .enumT _ _ => .enumL
  | .literalT _ _ => .literalL
  | .union _ _ => .unionL
  | .anyT _ => .anyL
  | .inter _ _ _ => .anyL
  | .unknown _ => .anyL

/-- The readable type name only depends on the node after unwrapping
optional/default wrappers. -/
theorem readableUnwrapAux :
    ∀ t : ZodType, getReadableTypeName (unwrapZodType t) = getReadableTypeName t
  | .optionalT inner _ => readableUnwrapAux inner
  | .defaultT inner _ _ => readableUnwrapAux inner
  | .record _ _ _ => rfl
  | .str _ => rfl
  | .num _ => rfl
  | .boolean _ => rfl
  | .arr _ _ => rfl
  | .object _ _ => rfl
  | .enumT _ _ => rfl
  | .literalT _ _ => rfl
  | .union _ _ => rfl
  | .anyT _ => rfl
  | .inter _ _ _ => rfl
  | .unknown _ => rfl

/-- C8: `getReadableTypeName` is a total function whose value, which
factors through the unwrapping of optional/default wrappers, is always
a member of the fixed label set (with `record<K, V>` built from
recursively derived labels); unrecognised kinds yield `"any"`. -/
theorem c8_readable_type_name_total :
    (∀ t : ZodType, ReadableLabel (getReadableTypeName t)) ∧
    (∀ t : ZodType, getReadableTypeName (unwrapZodType t) = getReadableTypeName t) ∧
    (∀ d, getReadableTypeName (ZodType.unknown d) = "any") :=
  ⟨readableLabelTotalAux, readableUnwrapAux, fun _ => rfl⟩

/-- C9: when `structuredContent` is present and `content` is empty, the
normalised result carries exactly one text item holding the JSON
serialisation of `structuredContent`; when `content` is non-empty or
`structuredContent` is absent, the result is unchanged. -/
theorem c9_structured_content_to_text (result : CallToolResult) :
    (∀ sc, result.structuredContent = some sc → result.content = [] →
      addStructuredContentAsText result =
        { result with content :=
            [{ type := "text", text := jsonStringify (Json.obj sc) }] }) ∧
    (result.content ≠ [] → addStructuredContentAsText result = result) ∧
    (result.structuredContent = none → addStructuredContentAsText result = result) := by
  refine ⟨?_, ?_, ?_⟩
  · intro sc hsc hc
    simp [addStructuredContentAsText, hsc, hc]
  · intro hc
    cases hsc : result.structuredContent with
    | none => simp [addStructuredContentAsText, hsc]
    | some sc =>
      cases hcc : result.content with
      | nil => exact absurd hcc hc
      | cons a rest => simp [addStructuredContentAsText, hsc, hcc]
  · intro hsc
    simp [addStructuredContentAsText, hsc]

/-- The result used by the C9 witness, mirroring the structured-content
unit test. -/
def c9WitnessResult : CallToolResult :=
  { isError := false, content := [],
    structuredContent := some
      [("values", Json.arr
        [Json.obj [("id", Json.str "1"), ("name", Json.str "Alpha")],
         Json.obj [("id", Json.str "2"), ("name", Json.str "Beta")]])] }

/-- C9 witness: a non-error result with `structuredContent` and empty
`content` gains exactly the compact JSON serialisation as its single
text item. -/
theorem c9_structured_content_to_text_witness :
    c9WitnessResult.content = [] ∧
    addStructuredContentAsText c9WitnessResult =
      { c9WitnessResult with content :=
          [{ type := "text",
             text := "\x7b\"values\":[\x7b\"id\":\"1\",\"name\":\"Alpha\"\x7d,\x7b\"id\":\"2\",\"name\":\"Beta\"\x7d]\x7d" }] } :=
  ⟨rfl, by
    rw [(c9_structured_content_to_text c9WitnessResult).1 _ rfl rfl]
    rfl⟩

/-- `prefB` accepts every list prefix. -/
theorem prefB_of_listPre : ∀ (l m : List Char), l <+: m → prefB l m = true := by
  intro l
  induction l with
  | nil => intro m _; rfl
  | cons a l ih =>
    intro m h
    cases m with
    | nil => simp at h
    | cons b m =>
      obtain ⟨t, ht⟩ := h
      injection ht with h1 h2
      subst h1
      simp [prefB, ih m ⟨t, h2⟩]

/-- `subLB` accepts every prefix. -/
theorem subLB_of_listPre (l m : List Char) (h : l <+: m) : subLB l m = true := by
  cases m with
  | nil => simpa [subLB] using prefB_of_listPre l [] h
  | cons b m' => simp [subLB, prefB_of_listPre _ _ h]

/-- `subLB` accepts a block embedded after any preamble. -/
theorem subLB_of_append (s l t : List Char) : subLB l (s ++ (l ++ t)) = true := by
  induction s with
  | nil => exact subLB_of_listPre l (l ++ t) ⟨t, rfl⟩
  | cons a s ih => simp [subLB, ih]

/-- `substrB` accepts every contiguous substring. -/
theorem substrB_intro (a b : String) (h : a.data <:+: b.data) : substrB a b = true := by
  obtain ⟨s, t, hst⟩ := h
  have hb : b.data = s ++ (a.data ++ t) := by
    rw [← hst, List.append_assoc]
  show subLB a.data b.data = true
  rw [hb]
  exact subLB_of_append s a.data t

/-- Dropping a predicate-satisfying prefix cannot reach past a block
whose first character falsifies the predicate. -/
theorem dropWhile_keeps_block (p : Char → Bool) :
    ∀ (L M : List Char) (c : Char), M.head? = some c → p c = false →
      ∃ L2, List.dropWhile p (L ++ M) = L2 ++ M := by
  intro L
  induction L with
  | nil =>
    intro M c hc hpc
    cases M with
    | nil => cases hc
    | cons m M' =>
      injection hc with h
      subst h
      exact ⟨[], by simp [List.dropWhile_cons, hpc]⟩
  | cons a L ih =>
    intro M c hc hpc
    by_cases hpa : p a = true
    · obtain ⟨L2, hL2⟩ := ih M c hc hpc
      exact ⟨L2, by simp [List.dropWhile_cons, hpa, hL2]⟩
    · exact ⟨a :: L, by simp [List.dropWhile_cons, hpa]⟩

/-- Dropping a predicate-satisfying suffix cannot reach past a block
whose last character falsifies the predicate. -/
theorem dropTrailing_keeps_block (p : Char → Bool) (M R : List Char) (c : Char)
    (hc : M.getLast? = some c) (hpc : p c = false) :
    ∃ R2, dropTrailing p (M ++ R) = M ++ R2 := by
  have hrev : M.reverse.head? = some c := by
    rw [List.head?_reverse]
    exact hc
  obtain ⟨L2, hL2⟩ := dropWhile_keeps_block p R.reverse M.reverse c hrev hpc
  refine ⟨L2.reverse, ?_⟩
  rw [dropTrailing, List.reverse_append, hL2, List.reverse_append, List.reverse_reverse]

/-- Trimming preserves any contiguous substring whose first and last
characters are not whitespace. -/
theorem jsTrimData_keeps_block (B S : List Char) (hinf : B <:+: S)
    (c0 : Char) (hh : B.head? = some c0) (hc0 : jsWs c0 = false)
    (c1 : Char) (hl : B.getLast? = some c1) (hc1 : jsWs c1 = false) :
    B <:+: jsTrimData S := by
  obtain ⟨P, R, hPR⟩ := hinf
  have hBne : B ≠ [] := by
    intro hB
    rw [hB] at hh
    cases hh
  have hBR_head : (B ++ R).head? = some c0 := by
    cases B with
    | nil => exact absurd rfl hBne
    | cons b B' =>
      injection hh with h
      subst h
      rfl
  obtain ⟨L2, hL2⟩ := dropWhile_keeps_block jsWs P (B ++ R) c0 hBR_head hc0
  have hlast : (L2 ++ B).getLast? = some c1 := by
    have h1 : B.reverse.head? = some c1 := by
      rw [List.head?_reverse]
      exact hl
    have h2 : (L2 ++ B).reverse.head? = some c1 := by
      rw [List.reverse_append]
      cases hBrev : B.reverse with
      | nil =>
        rw [hBrev] at h1
        cases h1
      | cons x xs =>
        rw [hBrev] at h1
        injection h1 with h
        subst h
        rfl
    rw [← List.head?_reverse]
    exact h2
  obtain ⟨R2, hR2⟩ := dropTrailing_keeps_block jsWs (L2 ++ B) R c1 hlast hc1
  have hres : jsTrimData S = L2 ++ B ++ R2 := by
    rw [jsTrimData, ← hPR, List.append_assoc, hL2, ← List.append_assoc, hR2]
  rw [hres]
  exact ⟨L2, R2, rfl⟩

/-- The intersection-schema ToolSpec refuting C1 as stated: its
`inputSchema` flattens to an object shape with fields `a` and `b`, yet
the compiled description has no `**Parameters:**` section at all. -/
def c1CounterParams : ToolParams :=
  { title := "Test Tool", summary := "A test tool", parameters := none,
    inputSchema := some (ZodType.inter
      (ZodType.object [("a", ZodType.str none)] none)
      (ZodType.object [("b", ZodType.str none)] none) none),
    outputSchema := none, useCases := none, examples := none, hints := none,
    outputDescription := none, readOnly := none, destructive := none,
    idempotent := none, openWorld := none }

/-- C1 counterexample: a ToolSpec whose `inputSchema` is an intersection
of two object schemas — `flatten` resolves it to the two-field object
shape, but `getDescription` (which tests `inputSchema instanceof
ZodObject`, not `flatten`) emits no `**Parameters:**` header for it. -/
theorem c1_counterexample :
    schemaToRawShape c1CounterParams.inputSchema =
      some [("a", ZodType.str none), ("b", ZodType.str none)] ∧
    getDescription c1CounterParams = "A test tool" ∧
    substrB "**Parameters:**" (getDescription c1CounterParams) = false :=
  ⟨rfl, rfl, rfl⟩

/-- C1 (amended): for every ToolSpec whose `inputSchema` is a plain
object schema node, the compiled description contains the
`**Parameters:**` header followed by one line per field name in
declaration order, each produced by `formatParameterDescription` (which
strips optional/default wrappers, marks ` *required*` only when neither
an optional wrapper nor a default was found, and appends
` (default: <JSON of default>)` when a default was found) — provided
the formatted block does not end in a whitespace character, which final
trimming would remove. An intersection `inputSchema` never produces
this section, even when `flatten` resolves it to an object shape. -/
theorem c1_object_input_schema_params_section (params : ToolParams)
    (shape : RawShape) (d : Option String)
    (hschema : params.inputSchema = some (ZodType.object shape d))
    (hend : endsNonWsB ("**Parameters:**\n" ++ inputSchemaLines shape) = true) :
    substrB ("**Parameters:**\n" ++ inputSchemaLines shape) (getDescription params) = true := by
  have hsec : schemaParamsSection params.inputSchema =
      "\n\n**Parameters:**\n" ++ inputSchemaLines shape := by
    rw [hschema]
    rfl
  have hBdata : ("**Parameters:**\n" ++ inputSchemaLines shape).data =
      ("**Parameters:**\n" : String).data ++ (inputSchemaLines shape).data :=
    strDataAppend _ _
  have hhead : ("**Parameters:**\n" ++ inputSchemaLines shape).data.head? = some '*' := by
    rw [hBdata]
    rfl
  obtain ⟨c1, hl, hc1⟩ :
      ∃ c, ("**Parameters:**\n" ++ inputSchemaLines shape).data.getLast? = some c ∧
        jsWs c = false := by
    rw [endsNonWsB] at hend
    cases hlast : ("**Parameters:**\n" ++ inputSchemaLines shape).data.getLast? with
    | none =>
      rw [hlast] at hend
      cases hend
    | some c =>
      rw [hlast] at hend
      exact ⟨c, rfl, by simpa using hend⟩
  apply substrB_intro
  rw [getDescription]
  show ("**Parameters:**\n" ++ inputSchemaLines shape).data <:+: (jsTrim _).data
  have hjt : ∀ s : String, (jsTrim s).data = jsTrimData s.data := fun _ => rfl
  rw [hjt, hsec]
  apply jsTrimData_keeps_block _ _ ?_ '*' hhead (by rfl) c1 hl hc1
  have hsplit : ("\n\n**Parameters:**\n" : String).data =
      ['\n', '\n'] ++ ("**Parameters:**\n" : String).data := rfl
  refine ⟨(params.summary ++ explicitParamsSection params.parameters).data ++ ['\n', '\n'],
    (outputDescSection params.outputDescription).data
      ++ (useCasesSection params.useCases).data
      ++ (examplesSection params.examples).data
      ++ (hintsSection params.hints).data, ?_⟩
  simp only [strDataAppend, hsplit, hBdata, List.append_assoc]
  rfl

/-- The object shape used by the C1 witness. -/
def c1WitnessShape : RawShape :=
  [("p1", ZodType.str (some "param-required-string")),
   ("p2", ZodType.optionalT (ZodType.num (some "param-optional-number")) none),
   ("p3", ZodType.defaultT (ZodType.num (some "param-defaulted-number")) (Json.num 1) none)]

/-- The ToolSpec used by the C1 witness: a plain object `inputSchema`
with required, optional and defaulted fields. -/
def c1WitnessParams : ToolParams :=
  { title := "Search values", summary := "Tool using input and output schemas",
    parameters := none, inputSchema := some (ZodType.object c1WitnessShape none),
    outputSchema := none, useCases := none, examples := none, hints := none,
    outputDescription := none, readOnly := none, destructive := none,
    idempotent := none, openWorld := none }

/-- C1 witness: the object-schema ToolSpec's description contains the
header and the three formatted field lines. -/
theorem c1_object_input_schema_params_section_witness :
    c1WitnessParams.inputSchema = some (ZodType.object c1WitnessShape none) ∧
    endsNonWsB ("**Parameters:**\n" ++ inputSchemaLines c1WitnessShape) = true ∧
    inputSchemaLines c1WitnessShape =
      "- p1 (string) *required*: param-required-string\n"
        ++ "- p2 (number): param-optional-number\n"
        ++ "- p3 (number): param-defaulted-number (default: 1)" ∧
    substrB ("**Parameters:**\n" ++ inputSchemaLines c1WitnessShape)
      (getDescription c1WitnessParams) = true :=
  ⟨rfl, rfl, rfl,
    c1_object_input_schema_params_section c1WitnessParams c1WitnessShape none rfl rfl⟩
